import Mathlib

/-!
Verification development for the microservice hook-pipeline dispatcher of a
mail transfer agent (source file: core/microservice.go). Go functions are
shallowly embedded as executable Lean definitions; network and filesystem
effects are passed in as explicit inputs (a per-endpoint "world" oracle for
HTTP call outcomes, booleans for temp-file and marshal success), and session
mutation is explicit state passing on a `Session` record. An event trace
records which endpoints were synchronously called, dispatched detached, or
had their failure policy evaluated.
-/

set_option autoImplicit false

namespace Tmail

/-- Embeds Go `type onfailure int` with constants CONTINUE, TEMPFAIL, PERMFAIL
(core/microservice.go lines 22-29). -/
inductive Onfailure where
  | CONTINUE
  | TEMPFAIL
  | PERMFAIL
  deriving DecidableEq, Repr

/-- Embeds Go `type microservice struct` (core/microservice.go lines 32-38).
`timeout` is a Go uint64, modelled as a Nat (bounded below 2^64 by the parser). -/
structure Microservice where
  url : String
  skipAuthentifiedUser : Bool
  fireAndForget : Bool
  timeout : Nat
  onFailure : Onfailure
  deriving DecidableEq, Repr

/-- Hex digit value, as used by Go net/url query unescaping. -/
def unhex (c : Char) : Option Nat :=
  if '0' ≤ c ∧ c ≤ '9' then some (c.toNat - 48)
  else if 'a' ≤ c ∧ c ≤ 'f' then some (c.toNat - 87)
  else if 'A' ≤ c ∧ c ≤ 'F' then some (c.toNat - 55)
  else none

/-- Embeds Go net/url `QueryUnescape` on a character list: '+' becomes space,
'%XY' with two hex digits becomes the byte XY, a '%' not followed by two hex
digits is an error (none). -/
def queryUnescape : List Char → Option (List Char)
  | [] => some []
  | '%' :: a :: b :: rest =>
    match unhex a, unhex b with
    | some ha, some hb =>
      (queryUnescape rest).map (fun r => Char.ofNat (ha * 16 + hb) :: r)
    | _, _ => none
  | '%' :: _ => none
  | '+' :: rest => (queryUnescape rest).map (fun r => ' ' :: r)
  | c :: rest => (queryUnescape rest).map (fun r => c :: r)

/-- Splits a raw query into items at each ampersand or semicolon separator, as
Go net/url `parseQuery` of this source's era does. -/
def querySplit : List Char → List Char → List (List Char)
  | [], cur => [cur.reverse]
  | c :: rest, cur =>
    if c = '&' ∨ c = ';' then cur.reverse :: querySplit rest []
    else querySplit rest (c :: cur)

/-- Splits one query item at its first '=' into key and value; an item without
'=' has an empty value (Go net/url `parseQuery`). -/
def querySplitKV : List Char → List Char → (List Char × List Char)
  | [], acc => (acc.reverse, [])
  | '=' :: rest, acc => (acc.reverse, rest)
  | c :: rest, acc => querySplitKV rest (c :: acc)

/-- Embeds Go net/url `parseQuery`: split into items, skip empty keys, split
each item at the first '=', unescape key and value, skip items whose
unescaping fails. Yields key/value pairs in order. -/
def parseQuery (rawQuery : String) : List (String × String) :=
  if rawQuery = "" then []
  else
    (querySplit rawQuery.toList []).filterMap (fun item =>
      match querySplitKV item [] with
      | (k, v) =>
        if k = [] then none
        else
          match queryUnescape k, queryUnescape v with
          | some k2, some v2 => some (String.mk k2, String.mk v2)
          | _, _ => none)

/-- Embeds Go net/url `Values.Get`: the first value associated to the key, or
the empty string when the key is absent. -/
def queryGet (pairs : List (String × String)) (key : String) : String :=
  match pairs.find? (fun p => p.1 = key) with
  | some p => p.2
  | none => ""

/-- Embeds the control-character check of Go net/url `Parse`
(`stringContainsCTLByte`): a byte below 0x20 or equal to 0x7f anywhere in the
URL makes `url.Parse` fail. This is the `url.Parse` failure mode relevant to
the inputs considered here; the parse of a CTL-free URI of the shapes used by
this repository succeeds and its `RawQuery` is everything after the first '?'. -/
def containsCTLByte (s : String) : Bool :=
  s.toList.any (fun c => c.toNat < 32 ∨ c.toNat = 127)

/-- Characters before the first '?': Go `strings.Split(uri, "?")[0]`. -/
def beforeQmark : List Char → List Char
  | [] => []
  | c :: rest => if c = '?' then [] else c :: beforeQmark rest

/-- Characters after the first '?' (empty when there is no '?'): the
`RawQuery` that Go `parsed.Query()` parses. -/
def afterQmark : List Char → List Char
  | [] => []
  | c :: rest => if c = '?' then rest else afterQmark rest

/-- Everything after the first '?' of the URI: the `RawQuery` that Go
`parsed.Query()` parses. -/
def rawQueryOf (uri : String) : String :=
  String.mk (afterQmark uri.toList)

/-- Embeds Go `strconv.ParseUint(s, 10, 64)`: error (none) on the empty
string, on any non-digit character, and on values not fitting in 64 bits. -/
def parseUint64 (s : String) : Option Nat :=
  if s = "" then none
  else if s.toList.all (fun c => c.isDigit) then
    let v := s.toList.foldl (fun a c => a * 10 + (c.toNat - 48)) 0
    if v < 2 ^ 64 then some v else none
  else none

/-- Embeds Go `newMicroservice` (core/microservice.go lines 41-77): defaults
skipAuthentifiedUser=false, onFailure=CONTINUE, timeout=30; url is the part of
the URI before the first '?'; a `url.Parse` failure or a timeout that fails
`strconv.ParseUint` returns an error; `onfailure` recognizes only `tempfail`
and `permfail`, any other value leaves the default. -/
def newMicroservice (uri : String) : Except String Microservice :=
  let url := String.mk (beforeQmark uri.toList)
  if containsCTLByte uri then
    Except.error ("parse " ++ uri ++ ": net/url: invalid control character in URL")
  else
    let q := parseQuery (rawQueryOf uri)
    let skipA := queryGet q "skipauthentifieduser" = "true"
    let faf := queryGet q "fireandforget" = "true"
    let timeoutStr := queryGet q "timeout"
    match (if timeoutStr ≠ "" then parseUint64 timeoutStr else some 30) with
    | none =>
      Except.error ("strconv.ParseUint: parsing \"" ++ timeoutStr ++ "\": invalid syntax")
    | some t =>
      let onf := match queryGet q "onfailure" with
        | "tempfail" => Onfailure.TEMPFAIL
        | "permfail" => Onfailure.PERMFAIL
        | _ => Onfailure.CONTINUE
      Except.ok { url := url, skipAuthentifiedUser := skipA, fireAndForget := faf,
                  timeout := t, onFailure := onf }

/-- Outcome of one HTTP request/response exchange, the input to `call`: either
the request itself failed (network error or timeout, Go `client.Do` error), or
reading the response body failed, or a response arrived with a status code, a
status text (Go `r.Status`, e.g. "301 Moved Permanently") and a raw body. -/
inductive TransportOutcome where
  | netError (msg : String)
  | readError (msg : String)
  | response (statusCode : Nat) (status : String) (rawBody : String)
  deriving DecidableEq, Repr

/-- Embeds Go `(*microservice).call` (core/microservice.go lines 90-106): a
request error or body-read error is returned as is; a response with StatusCode
greater than 399 becomes the error `Status ++ " - " ++ body`; otherwise the
raw body is returned. -/
def call (outcome : TransportOutcome) : Except String String :=
  match outcome with
  | TransportOutcome.netError m => Except.error m
  | TransportOutcome.readError m => Except.error m
  | TransportOutcome.response code status rawBody =>
    if code > 399 then Except.error (status ++ " - " ++ rawBody)
    else Except.ok rawBody

/-- Embeds Go `(*microservice).stopOnError` (core/microservice.go lines
109-118): PERMFAIL and TEMPFAIL stop, everything else continues. -/
def Microservice.stopOnError (ms : Microservice) : Bool :=
  match ms.onFailure with
  | Onfailure.PERMFAIL => true
  | Onfailure.TEMPFAIL => true
  | Onfailure.CONTINUE => false

deriving instance DecidableEq for Except

/-- The observable state of one SMTP server session (the parts of Go
`SMTPServerSession` this source reads or writes): `authenticated` models
`s.user != nil`; `outputs` collects the lines written by `s.out`; `logs`
collects `s.log` and `s.logError` lines; `exitRequested` is set by
`s.exitAsap`; `relayGranted` is the `s.relayGranted` field. -/
structure Session where
  authenticated : Bool
  outputs : List String
  logs : List String
  exitRequested : Bool
  relayGranted : Bool
  deriving DecidableEq, Repr

/-- Embeds `s.out(msg)`: append one reply line to the session's outbound
channel. -/
def Session.out (s : Session) (line : String) : Session :=
  { s with outputs := s.outputs ++ [line] }

/-- Embeds `s.log(msg)`. -/
def Session.logInfo (s : Session) (m : String) : Session :=
  { s with logs := s.logs ++ [m] }

/-- Embeds `s.logError(msg)`. -/
def Session.logErr (s : Session) (m : String) : Session :=
  { s with logs := s.logs ++ ["error: " ++ m] }

/-- Embeds `s.exitAsap()`: request session termination (idempotent). -/
def Session.exitAsap (s : Session) : Session :=
  { s with exitRequested := true }

/-- Embeds the decoded `msproto.SmtpResponse` message: `GetCode` and `GetMsg`
of the Go protobuf. -/
structure SmtpResponse where
  code : Int
  msg : String
  deriving DecidableEq, Repr

/-- Embeds Go `handleSMTPResponse` (core/microservice.go lines 141-153): when
the decoded response is present and has nonzero code and nonempty message, the
formatted reply `code ++ " " ++ msg` is written to the session and logged and
stop=true is returned; otherwise nothing is written and stop=false. -/
def handleSMTPResponse (smtpResponse : Option SmtpResponse) (s : Session) :
    Bool × Session :=
  match smtpResponse with
  | none => (false, s)
  | some r =>
    if r.code ≠ 0 ∧ r.msg ≠ "" then
      let reply := toString r.code ++ " " ++ r.msg
      (true, (s.out reply).logInfo
        ("smtp response from microservice sent to client: " ++ reply))
    else (false, s)

/-- Embeds Go `(*microservice).handleSMTPError` (core/microservice.go lines
123-138): nil error continues; otherwise log the failure, then PERMFAIL writes
a 550 reply and stops, TEMPFAIL writes a 450 reply and stops, CONTINUE only
logs. -/
def Microservice.handleSMTPError (ms : Microservice) (e : Option String)
    (s : Session) : Bool × Session :=
  match e with
  | none => (false, s)
  | some msg =>
    let s1 := s.logErr ("microservice " ++ ms.url ++ " failed. " ++ msg)
    match ms.onFailure with
    | Onfailure.PERMFAIL => (true, s1.out "550 sorry something wrong happened")
    | Onfailure.TEMPFAIL => (true, s1.out "450 sorry something wrong happened")
    | Onfailure.CONTINUE => (false, s1)

/-- Ghost trace event recording how the pipeline interacted with the endpoint
at a given position: a synchronous `ms.call`, a detached `go ms.call`
dispatch, or an evaluation of the endpoint's failure policy
(`stopOnError` / `handleSMTPError`). -/
inductive Event where
  | called (idx : Nat) (url : String)
  | dispatched (idx : Nat) (url : String)
  | policyEval (idx : Nat) (url : String)
  deriving DecidableEq, Repr

/-- Position of the endpoint an event concerns. -/
def Event.idx : Event → Nat
  | Event.called i _ => i
  | Event.dispatched i _ => i
  | Event.policyEval i _ => i

/-- The outcome the network would produce for one endpoint's call-and-decode
sequence: `transportErr` is a `ms.call` error (network failure, timeout or
non-success status), `decodeErr` is a successful call whose body fails
`proto.Unmarshal`, `ok` is a successful call with a decoded response. -/
inductive CallResult (α : Type) where
  | transportErr (msg : String)
  | decodeErr (msg : String)
  | ok (resp : α)
  deriving DecidableEq, Repr

/-- Decoded `msproto.SmtpdNewClientResponse`. -/
structure SmtpdNewClientResponse where
  smtpResponse : Option SmtpResponse
  dropConnection : Bool
  deriving DecidableEq, Repr

/-- Decoded `msproto.SmtpdRcptToResponse`. -/
structure SmtpdRcptToResponse where
  relayGranted : Bool
  smtpResponse : Option SmtpResponse
  dropConnection : Bool
  deriving DecidableEq, Repr

/-- Decoded `msproto.SmtpdDataResponse`. -/
structure SmtpdDataResponse where
  smtpResponse : Option SmtpResponse
  extraHeaders : List String
  dropConnection : Bool
  deriving DecidableEq, Repr

/-- Result of one session hook run: the returned `stop` flag, the final
session state, and the ghost event trace. -/
structure HookResult where
  stop : Bool
  session : Session
  events : List Event
  deriving DecidableEq, Repr

/-- Embeds the endpoint loop of Go `msSmtpdNewClient` (core/microservice.go
lines 172-221). `world i` is the call-and-decode outcome the network would
give the endpoint at position `i`. The Go loop body starts with `stop = false`
and its error branches do `s.logError(...); if ms.stopOnError() { return }`
with a bare `return`, so a halting transport or decode failure returns the
reset value stop=false and writes no reply. -/
def msSmtpdNewClientLoop (world : Nat → CallResult SmtpdNewClientResponse) :
    List String → Nat → Session → List Event → HookResult
  | [], _, s, evs => ⟨false, s, evs⟩
  | uri :: rest, i, s, evs =>
    match newMicroservice uri with
    | Except.error e =>
      msSmtpdNewClientLoop world rest (i + 1)
        (s.logErr ("unable to parse microservice url " ++ uri ++ ". " ++ e)) evs
    | Except.ok ms =>
      if s.authenticated ∧ ms.skipAuthentifiedUser then
        msSmtpdNewClientLoop world rest (i + 1) s evs
      else
        let s1 := s.logInfo ("calling " ++ ms.url)
        if ms.fireAndForget then
          msSmtpdNewClientLoop world rest (i + 1) s1 (evs ++ [Event.dispatched i ms.url])
        else
          let evs1 := evs ++ [Event.called i ms.url]
          match world i with
          | CallResult.transportErr e =>
            let s2 := s1.logErr ("microservice " ++ ms.url ++ " failed. " ++ e)
            let evs2 := evs1 ++ [Event.policyEval i ms.url]
            if ms.stopOnError then ⟨false, s2, evs2⟩
            else msSmtpdNewClientLoop world rest (i + 1) s2 evs2
          | CallResult.decodeErr e =>
            let s2 := s1.logErr ("microservice " ++ ms.url ++ " failed. " ++ e)
            let evs2 := evs1 ++ [Event.policyEval i ms.url]
            if ms.stopOnError then ⟨false, s2, evs2⟩
            else msSmtpdNewClientLoop world rest (i + 1) s2 evs2
          | CallResult.ok resp =>
            let p := handleSMTPResponse resp.smtpResponse s1
            let s2 := if resp.dropConnection then p.2.exitAsap else p.2
            let stop2 := if resp.dropConnection then true else p.1
            if stop2 then ⟨true, s2, evs1⟩
            else msSmtpdNewClientLoop world rest (i + 1) s2 evs1

/-- Embeds Go `msSmtpdNewClient` (core/microservice.go lines 157-223): no
configured endpoint means stop=false with no activity; a marshal failure of
the outbound query is logged and aborts with stop=false; otherwise the
endpoint loop runs. -/
def msSmtpdNewClient (uris : List String) (marshalOk : Bool)
    (world : Nat → CallResult SmtpdNewClientResponse) (s : Session) : HookResult :=
  if uris = [] then ⟨false, s, []⟩
  else if marshalOk then msSmtpdNewClientLoop world uris 0 s []
  else ⟨false, s.logErr "unable to serialize data as SmtpdNewClientMsg. marshal error", []⟩

/-- Embeds the endpoint loop of Go `msSmtpdRcptTo` (core/microservice.go lines
239-290). Unlike the NewClient loop, its error branches route through
`handleSMTPError`, which writes the 550/450 reply before halting; a successful
decode first overwrites `s.relayGranted` unconditionally. -/
def msSmtpdRcptToLoop (world : Nat → CallResult SmtpdRcptToResponse) :
    List String → Nat → Session → List Event → HookResult
  | [], _, s, evs => ⟨false, s, evs⟩
  | uri :: rest, i, s, evs =>
    match newMicroservice uri with
    | Except.error e =>
      msSmtpdRcptToLoop world rest (i + 1)
        (s.logErr ("unable to parse microservice url " ++ uri ++ ". " ++ e)) evs
    | Except.ok ms =>
      if s.authenticated ∧ ms.skipAuthentifiedUser then
        msSmtpdRcptToLoop world rest (i + 1) s evs
      else
        let s1 := s.logInfo ("calling " ++ ms.url)
        if ms.fireAndForget then
          msSmtpdRcptToLoop world rest (i + 1) s1 (evs ++ [Event.dispatched i ms.url])
        else
          let evs1 := evs ++ [Event.called i ms.url]
          match world i with
          | CallResult.transportErr e =>
            let p := ms.handleSMTPError (some e) s1
            let evs2 := evs1 ++ [Event.policyEval i ms.url]
            if p.1 then ⟨true, p.2, evs2⟩
            else msSmtpdRcptToLoop world rest (i + 1) p.2 evs2
          | CallResult.decodeErr e =>
            let p := ms.handleSMTPError (some e) s1
            let evs2 := evs1 ++ [Event.policyEval i ms.url]
            if p.1 then ⟨true, p.2, evs2⟩
            else msSmtpdRcptToLoop world rest (i + 1) p.2 evs2
          | CallResult.ok resp =>
            let sRelay := { s1 with relayGranted := resp.relayGranted }
            let p := handleSMTPResponse resp.smtpResponse sRelay
            let s2 := if resp.dropConnection then p.2.exitAsap else p.2
            let stop2 := if resp.dropConnection then true else p.1
            if stop2 then ⟨true, s2, evs1⟩
            else msSmtpdRcptToLoop world rest (i + 1) s2 evs1

/-- Embeds Go `msSmtpdRcptTo` (core/microservice.go lines 226-292). -/
def msSmtpdRcptTo (uris : List String) (marshalOk : Bool)
    (world : Nat → CallResult SmtpdRcptToResponse) (s : Session) : HookResult :=
  if uris = [] then ⟨false, s, []⟩
  else if marshalOk then msSmtpdRcptToLoop world uris 0 s []
  else ⟨false, s.logErr "unable to serialize data as SmtpdRcptToQuery. marshal error", []⟩

/-- Result of the smtpdData endpoint loop: stop flag, accumulated extra
headers, final session, and trace. -/
structure DataLoopResult where
  stop : Bool
  extraHeaders : List String
  session : Session
  events : List Event
  deriving DecidableEq, Repr

/-- Embeds the endpoint loop of Go `smtpdData` (core/microservice.go lines
334-376). Note there is no `fireAndForget` branch in this loop: the flag is
parsed but never consulted and every non-skipped endpoint is called
synchronously. A successful decode appends `GetExtraHeaders()` to the
accumulator before the reply/drop handling. -/
def smtpdDataLoop (world : Nat → CallResult SmtpdDataResponse) :
    List String → Nat → Session → List Event → List String → DataLoopResult
  | [], _, s, evs, hdrs => ⟨false, hdrs, s, evs⟩
  | uri :: rest, i, s, evs, hdrs =>
    match newMicroservice uri with
    | Except.error e =>
      smtpdDataLoop world rest (i + 1)
        (s.logErr ("unable to parse microservice url " ++ uri ++ ". " ++ e)) evs hdrs
    | Except.ok ms =>
      if s.authenticated ∧ ms.skipAuthentifiedUser then
        smtpdDataLoop world rest (i + 1) s evs hdrs
      else
        let s1 := s.logInfo ("calling " ++ ms.url)
        let evs1 := evs ++ [Event.called i ms.url]
        match world i with
        | CallResult.transportErr e =>
          let p := ms.handleSMTPError (some e) s1
          let evs2 := evs1 ++ [Event.policyEval i ms.url]
          if p.1 then ⟨true, hdrs, p.2, evs2⟩
          else smtpdDataLoop world rest (i + 1) p.2 evs2 hdrs
        | CallResult.decodeErr e =>
          let p := ms.handleSMTPError (some e) s1
          let evs2 := evs1 ++ [Event.policyEval i ms.url]
          if p.1 then ⟨true, hdrs, p.2, evs2⟩
          else smtpdDataLoop world rest (i + 1) p.2 evs2 hdrs
        | CallResult.ok resp =>
          let hdrs1 := hdrs ++ resp.extraHeaders
          let p := handleSMTPResponse resp.smtpResponse s1
          let s2 := if resp.dropConnection then p.2.exitAsap else p.2
          let stop2 := if resp.dropConnection then true else p.1
          if stop2 then ⟨true, hdrs1, s2, evs1⟩
          else smtpdDataLoop world rest (i + 1) s2 evs1 hdrs1

/-- Result of a whole `smtpdData` run, adding the lifecycle of the temporary
message-body file: whether it was created and whether it was removed before
the run completed. -/
structure DataResult where
  stop : Bool
  extraHeaders : List String
  session : Session
  events : List Event
  tmpCreated : Bool
  tmpRemoved : Bool
  deriving DecidableEq, Repr

/-- Embeds the HTTP data link built by Go `smtpdData` (core/microservice.go
lines 314-322): scheme chosen by the TLS flag, then restIp:restPort/msdata/
and the final path component of the temp file name. -/
def msDataLink (restIp : String) (restPort : Nat) (isTls : Bool)
    (tmpFileName : String) : String :=
  let base := restIp ++ ":" ++ toString restPort ++ "/msdata/" ++
    (List.getLastD (tmpFileName.splitOn "/") "")
  if isTls then "https://" ++ base else "http://" ++ base

/-- Embeds Go `smtpdData` (core/microservice.go lines 295-378). The inputs
`tempFileOk`, `writeOk`, `marshalOk` are the outcomes of `ioutil.TempFile`,
`f.Write` and `proto.Marshal`. The `defer os.Remove(f.Name())` is registered
only after the `f.Write` error check (line 311), so the write-failure path
returns with the file created but not removed; every later exit runs the
deferred removal. -/
def smtpdData (uris : List String) (tempFileOk writeOk marshalOk : Bool)
    (world : Nat → CallResult SmtpdDataResponse) (s : Session) : DataResult :=
  if uris = [] then ⟨false, [], s, [], false, false⟩
  else if tempFileOk = false then
    ⟨false, [], s.logErr "ms - unable to save rawmail in tempfile. create error",
      [], false, false⟩
  else if writeOk = false then
    ⟨false, [], s.logErr "ms - unable to save rawmail in tempfile. write error",
      [], true, false⟩
  else if marshalOk = false then
    ⟨false, [], s.logErr "unable to serialize data as SmtpdDataQuery. marshal error",
      [], true, true⟩
  else
    let r := smtpdDataLoop world uris 0 s [] []
    ⟨r.stop, r.extraHeaders, r.session, r.events, true, true⟩

/-- A resolved route record as built from the decoded response
(core/microservice.go lines 422-436); Go `sql.NullString` / `sql.NullInt64`
are modelled as Option. -/
structure Route where
  remoteHost : String
  localIp : Option String
  remotePort : Option Int
  priority : Option Int
  deriving DecidableEq, Repr

/-- One decoded `msproto.Route` of the `DeliverdGetRoutesResponse`. -/
structure MsRoute where
  remoteHost : String
  localIp : String
  remotePort : Int
  priority : Int
  deriving DecidableEq, Repr

/-- Decoded `msproto.DeliverdGetRoutesResponse`. -/
structure DeliverdGetRoutesResponse where
  routes : List MsRoute
  deriving DecidableEq, Repr

/-- Conversion of one decoded route entry (core/microservice.go lines
422-434): empty LocalIp, zero RemotePort and zero Priority stay null. -/
def convRoute (rt : MsRoute) : Route :=
  { remoteHost := rt.remoteHost
    localIp := if rt.localIp ≠ "" then some rt.localIp else none
    remotePort := if rt.remotePort ≠ 0 then some rt.remotePort else none
    priority := if rt.priority ≠ 0 then some rt.priority else none }

/-- Embeds Go `msGetRoutes` (core/microservice.go lines 381-438). Only the
first configured URI is consulted. The outer Option is definedness: on a
parse failure of that URI the Go code executes `return nil, ms.stopOnError()`
with `ms == nil`, and `stopOnError` dereferences its nil receiver
(`switch ms.onFailure`), a nil-pointer panic — modelled as `none`. All other
paths return `some (routes, stop)` with `routes = none` embedding a nil Go
routes pointer. -/
def msGetRoutes (uris : List String)
    (world : CallResult DeliverdGetRoutesResponse) :
    Option (Option (List Route) × Bool) :=
  match uris with
  | [] => some (some [], false)
  | uri0 :: _ =>
    match newMicroservice uri0 with
    | Except.error _ => none
    | Except.ok ms =>
      match world with
      | CallResult.transportErr _ => some (none, ms.stopOnError)
      | CallResult.decodeErr _ => some (some [], ms.stopOnError)
      | CallResult.ok resp =>
        if resp.routes = [] then some (none, false)
        else some (some (resp.routes.map convRoute), false)

/-! Helper lemmas about the bridge functions and the three endpoint loops. -/

theorem mem_snoc_idx {evs tail : List Event} {e : Event} {i : Nat}
    (h : e ∈ evs ++ tail) (hl : ∀ x ∈ tail, x.idx = i) : e ∈ evs ∨ i ≤ e.idx := by
  rcases List.mem_append.mp h with h | h
  · exact Or.inl h
  · exact Or.inr (Nat.le_of_eq (hl e h).symm)

theorem idx_pair {i : Nat} {u v : String} :
    ∀ x ∈ [Event.called i u, Event.policyEval i v], Event.idx x = i := by
  intro x hx
  simp only [List.mem_cons, List.mem_singleton, List.not_mem_nil, or_false] at hx
  rcases hx with hx | hx <;> (subst hx; rfl)

theorem idx_one {i : Nat} {ev : Nat → String → Event} {u : String}
    (hev : ev = Event.called ∨ ev = Event.dispatched ∨ ev = Event.policyEval) :
    ∀ x ∈ [ev i u], Event.idx x = i := by
  intro x hx
  simp only [List.mem_singleton] at hx
  subst hx
  rcases hev with h | h | h <;> (subst h; rfl)

theorem handleSMTPResponse_noreply (r : Option SmtpResponse) (s : Session)
    (h : r = none ∨ ∃ x, r = some x ∧ (x.code = 0 ∨ x.msg = "")) :
    handleSMTPResponse r s = (false, s) := by
  rcases h with h | ⟨x, hx, hz⟩
  · subst h; rfl
  · subst hx
    simp only [handleSMTPResponse]
    rw [if_neg]
    intro hc
    rcases hz with hz | hz
    · exact hc.1 hz
    · exact hc.2 hz

theorem handleSMTPResponse_session_fields (r : Option SmtpResponse) (s : Session) :
    (handleSMTPResponse r s).2.authenticated = s.authenticated ∧
    (handleSMTPResponse r s).2.exitRequested = s.exitRequested ∧
    (handleSMTPResponse r s).2.relayGranted = s.relayGranted := by
  rcases r with _ | r
  · exact ⟨rfl, rfl, rfl⟩
  · simp only [handleSMTPResponse]
    split
    · exact ⟨rfl, rfl, rfl⟩
    · exact ⟨rfl, rfl, rfl⟩

theorem handleSMTPError_halt (ms : Microservice) (e : String) (s : Session)
    (hpol : ms.onFailure = Onfailure.TEMPFAIL ∨ ms.onFailure = Onfailure.PERMFAIL) :
    ms.handleSMTPError (some e) s =
      (true, (s.logErr ("microservice " ++ ms.url ++ " failed. " ++ e)).out
        (if ms.onFailure = Onfailure.PERMFAIL then "550 sorry something wrong happened"
         else "450 sorry something wrong happened")) ∧
    ms.stopOnError = true := by
  rcases hpol with hp | hp <;>
    simp [Microservice.handleSMTPError, Microservice.stopOnError, hp]

theorem newClientLoop_events_ge (w : Nat → CallResult SmtpdNewClientResponse) :
    ∀ (l : List String) (i : Nat) (s : Session) (evs : List Event) (e : Event),
      e ∈ (msSmtpdNewClientLoop w l i s evs).events → e ∈ evs ∨ i ≤ e.idx := by
  intro l
  induction l with
  | nil =>
    intro i s evs e h
    exact Or.inl h
  | cons uri rest ih =>
    intro i s evs e h
    rw [msSmtpdNewClientLoop] at h
    simp only [List.append_assoc, List.cons_append, List.nil_append] at h
    split at h
    · rcases ih _ _ _ _ h with h | h
      · exact Or.inl h
      · exact Or.inr (Nat.le_of_succ_le h)
    · split at h
      · rcases ih _ _ _ _ h with h | h
        · exact Or.inl h
        · exact Or.inr (Nat.le_of_succ_le h)
      · split at h
        · rcases ih _ _ _ _ h with h | h
          · exact mem_snoc_idx h (idx_one (Or.inr (Or.inl rfl)))
          · exact Or.inr (Nat.le_of_succ_le h)
        · split at h
          · split at h
            · simp only at h
              exact mem_snoc_idx h idx_pair
            · rcases ih _ _ _ _ h with h | h
              · exact mem_snoc_idx h idx_pair
              · exact Or.inr (Nat.le_of_succ_le h)
          · split at h
            · simp only at h
              exact mem_snoc_idx h idx_pair
            · rcases ih _ _ _ _ h with h | h
              · exact mem_snoc_idx h idx_pair
              · exact Or.inr (Nat.le_of_succ_le h)
          · split at h
            · simp only [if_pos rfl] at h
              exact mem_snoc_idx h (idx_one (Or.inl rfl))
            · split at h
              · simp only at h
                exact mem_snoc_idx h (idx_one (Or.inl rfl))
              · rcases ih _ _ _ _ h with h | h
                · exact mem_snoc_idx h (idx_one (Or.inl rfl))
                · exact Or.inr (Nat.le_of_succ_le h)

theorem rcptToLoop_events_ge (w : Nat → CallResult SmtpdRcptToResponse) :
    ∀ (l : List String) (i : Nat) (s : Session) (evs : List Event) (e : Event),
      e ∈ (msSmtpdRcptToLoop w l i s evs).events → e ∈ evs ∨ i ≤ e.idx := by
  intro l
  induction l with
  | nil =>
    intro i s evs e h
    exact Or.inl h
  | cons uri rest ih =>
    intro i s evs e h
    rw [msSmtpdRcptToLoop] at h
    simp only [List.append_assoc, List.cons_append, List.nil_append] at h
    split at h
    · rcases ih _ _ _ _ h with h | h
      · exact Or.inl h
      · exact Or.inr (Nat.le_of_succ_le h)
    · split at h
      · rcases ih _ _ _ _ h with h | h
        · exact Or.inl h
        · exact Or.inr (Nat.le_of_succ_le h)
      · split at h
        · rcases ih _ _ _ _ h with h | h
          · exact mem_snoc_idx h (idx_one (Or.inr (Or.inl rfl)))
          · exact Or.inr (Nat.le_of_succ_le h)
        · split at h
          · split at h
            · simp only at h
              exact mem_snoc_idx h idx_pair
            · rcases ih _ _ _ _ h with h | h
              · exact mem_snoc_idx h idx_pair
              · exact Or.inr (Nat.le_of_succ_le h)
          · split at h
            · simp only at h
              exact mem_snoc_idx h idx_pair
            · rcases ih _ _ _ _ h with h | h
              · exact mem_snoc_idx h idx_pair
              · exact Or.inr (Nat.le_of_succ_le h)
          · split at h
            · simp only [if_pos rfl] at h
              exact mem_snoc_idx h (idx_one (Or.inl rfl))
            · split at h
              · simp only at h
                exact mem_snoc_idx h (idx_one (Or.inl rfl))
              · rcases ih _ _ _ _ h with h | h
                · exact mem_snoc_idx h (idx_one (Or.inl rfl))
                · exact Or.inr (Nat.le_of_succ_le h)

theorem dataLoop_events_ge (w : Nat → CallResult SmtpdDataResponse) :
    ∀ (l : List String) (i : Nat) (s : Session) (evs : List Event)
      (hdrs : List String) (e : Event),
      e ∈ (smtpdDataLoop w l i s evs hdrs).events → e ∈ evs ∨ i ≤ e.idx := by
  intro l
  induction l with
  | nil =>
    intro i s evs hdrs e h
    exact Or.inl h
  | cons uri rest ih =>
    intro i s evs hdrs e h
    rw [smtpdDataLoop] at h
    simp only [List.append_assoc, List.cons_append, List.nil_append] at h
    split at h
    · rcases ih _ _ _ _ _ h with h | h
      · exact Or.inl h
      · exact Or.inr (Nat.le_of_succ_le h)
    · split at h
      · rcases ih _ _ _ _ _ h with h | h
        · exact Or.inl h
        · exact Or.inr (Nat.le_of_succ_le h)
      · split at h
        · split at h
          · simp only at h
            exact mem_snoc_idx h idx_pair
          · rcases ih _ _ _ _ _ h with h | h
            · exact mem_snoc_idx h idx_pair
            · exact Or.inr (Nat.le_of_succ_le h)
        · split at h
          · simp only at h
            exact mem_snoc_idx h idx_pair
          · rcases ih _ _ _ _ _ h with h | h
            · exact mem_snoc_idx h idx_pair
            · exact Or.inr (Nat.le_of_succ_le h)
        · split at h
          · simp only [if_pos rfl] at h
            exact mem_snoc_idx h (idx_one (Or.inl rfl))
          · split at h
            · simp only at h
              exact mem_snoc_idx h (idx_one (Or.inl rfl))
            · rcases ih _ _ _ _ _ h with h | h
              · exact mem_snoc_idx h (idx_one (Or.inl rfl))
              · exact Or.inr (Nat.le_of_succ_le h)

theorem newClientLoop_congr (w w' : Nat → CallResult SmtpdNewClientResponse) :
    ∀ (l : List String) (i : Nat) (s : Session) (evs : List Event),
      (∀ j, i ≤ j → w j = w' j) →
      msSmtpdNewClientLoop w l i s evs = msSmtpdNewClientLoop w' l i s evs := by
  intro l
  induction l with
  | nil => intro i s evs _; rfl
  | cons uri rest ih =>
    intro i s evs hw
    have hrest : ∀ j, i + 1 ≤ j → w j = w' j := fun j hj => hw j (Nat.le_of_succ_le hj)
    rw [msSmtpdNewClientLoop, msSmtpdNewClientLoop, ← hw i (Nat.le_refl i)]
    simp only []
    repeat' split
    all_goals first | rfl | exact ih _ _ _ hrest

theorem rcptToLoop_congr (w w' : Nat → CallResult SmtpdRcptToResponse) :
    ∀ (l : List String) (i : Nat) (s : Session) (evs : List Event),
      (∀ j, i ≤ j → w j = w' j) →
      msSmtpdRcptToLoop w l i s evs = msSmtpdRcptToLoop w' l i s evs := by
  intro l
  induction l with
  | nil => intro i s evs _; rfl
  | cons uri rest ih =>
    intro i s evs hw
    have hrest : ∀ j, i + 1 ≤ j → w j = w' j := fun j hj => hw j (Nat.le_of_succ_le hj)
    rw [msSmtpdRcptToLoop, msSmtpdRcptToLoop, ← hw i (Nat.le_refl i)]
    simp only []
    repeat' split
    all_goals first | rfl | exact ih _ _ _ hrest

/-! Claim theorems. -/

/-- Claim C6: parsing "http://h/x?timeout=5&onfailure=permfail" yields
timeout 5, onFailure PERMFAIL and both flags false; parsing recognizes
skipauthentifieduser=true, fireandforget=true, timeout=seconds and
onfailure=continue|tempfail|permfail, keeps the defaults (timeout 30,
onFailure CONTINUE, flags false) for absent parameters, ignores an
unrecognized onfailure value, and returns a ConfigError when the timeout
value fails to parse. Confirmed on the embedding of newMicroservice. -/
theorem C6_endpoint_parsing :
    newMicroservice "http://h/x?timeout=5&onfailure=permfail" =
      Except.ok ⟨"http://h/x", false, false, 5, Onfailure.PERMFAIL⟩ ∧
    newMicroservice "http://h/x" =
      Except.ok ⟨"http://h/x", false, false, 30, Onfailure.CONTINUE⟩ ∧
    newMicroservice "http://h/x?skipauthentifieduser=true" =
      Except.ok ⟨"http://h/x", true, false, 30, Onfailure.CONTINUE⟩ ∧
    newMicroservice "http://h/x?fireandforget=true" =
      Except.ok ⟨"http://h/x", false, true, 30, Onfailure.CONTINUE⟩ ∧
    newMicroservice "http://h/x?timeout=7" =
      Except.ok ⟨"http://h/x", false, false, 7, Onfailure.CONTINUE⟩ ∧
    newMicroservice "http://h/x?onfailure=continue" =
      Except.ok ⟨"http://h/x", false, false, 30, Onfailure.CONTINUE⟩ ∧
    newMicroservice "http://h/x?onfailure=tempfail" =
      Except.ok ⟨"http://h/x", false, false, 30, Onfailure.TEMPFAIL⟩ ∧
    newMicroservice "http://h/x?onfailure=nonsense" =
      Except.ok ⟨"http://h/x", false, false, 30, Onfailure.CONTINUE⟩ ∧
    newMicroservice "http://h/x?timeout=abc" =
      Except.error "strconv.ParseUint: parsing \"abc\": invalid syntax" :=
  ⟨rfl, rfl, rfl, rfl, rfl, rfl, rfl, rfl, rfl⟩

/-- Claim C3, counterexample: the claim says any non-2xx status is a
transport failure, but `call` only treats status codes above 399 as errors:
a 301 response (not a 2xx) is returned as a successful body. -/
theorem C3_counterexample :
    ¬ (200 ≤ 301 ∧ 301 ≤ 299) ∧
    call (TransportOutcome.response 301 "301 Moved Permanently" "redirect body") =
      Except.ok "redirect body" :=
  ⟨by decide, rfl⟩

/-- Claim C3, amended: a response status above 399 is returned as a transport
error carrying the status text and the raw body; any status up to 399
(including 3xx) yields the raw body; a network or body-read failure is also a
transport error. -/
theorem C3_amended (code : Nat) (status body e : String) :
    (399 < code → call (TransportOutcome.response code status body) =
      Except.error (status ++ " - " ++ body)) ∧
    (code ≤ 399 → call (TransportOutcome.response code status body) = Except.ok body) ∧
    call (TransportOutcome.netError e) = Except.error e ∧
    call (TransportOutcome.readError e) = Except.error e := by
  refine ⟨?_, ?_, rfl, rfl⟩
  · intro h
    simp [call, h]
  · intro h
    simp [call, Nat.not_lt.mpr h]

/-- Witness for C3_amended at status 500 (error) and status 301 (success). -/
theorem C3_amended_witness :
    call (TransportOutcome.response 500 "500 Internal Server Error" "oops") =
      Except.error "500 Internal Server Error - oops" ∧
    call (TransportOutcome.response 301 "301 Moved" "b") = Except.ok "b" :=
  ⟨(C3_amended 500 "500 Internal Server Error" "oops" "e").1 (by decide),
   (C3_amended 301 "301 Moved" "b" "e").2.1 (by decide)⟩

/-- Claim C2: a malformed endpoint reference is logged, skipped and the
pipeline continues — true for the session pipelines (third conjunct: the
NewClient loop skips the bad URI and still calls the next endpoint), but for
the GetRoutes hook the run is NOT well-defined: msGetRoutes evaluates to
`none` (the embedding of the nil-pointer dereference in
`return nil, ms.stopOnError()` with a nil `ms`). -/
theorem C2_getroutes_parse_failure :
    newMicroservice "http://h/x?timeout=abc" =
      Except.error "strconv.ParseUint: parsing \"abc\": invalid syntax" ∧
    msGetRoutes ["http://h/x?timeout=abc"] (CallResult.ok ⟨[]⟩) = none ∧
    msSmtpdNewClientLoop (fun _ => CallResult.ok ⟨none, false⟩)
      ["http://h/x?timeout=abc", "http://ok/y"] 0 ⟨false, [], [], false, false⟩ [] =
      ⟨false, ⟨false, [],
        ["error: unable to parse microservice url http://h/x?timeout=abc. strconv.ParseUint: parsing \"abc\": invalid syntax",
         "calling http://ok/y"], false, false⟩,
       [Event.called 1 "http://ok/y"]⟩ :=
  ⟨rfl, rfl, by decide⟩

/-- Claim C1, counterexample: a PERMFAIL endpoint of the NewClient hook whose
transport call fails halts the pipeline (the second endpoint is never
contacted), but the session receives no 550 reply (outputs stay empty) and the
run even returns stop=false — the NewClient loop uses a bare `return` after
the per-iteration `stop = false` reset. -/
theorem C1_counterexample :
    msSmtpdNewClient ["http://h/x?onfailure=permfail", "http://h2/y"] true
      (fun _ => CallResult.transportErr "connection refused") ⟨false, [], [], false, false⟩ =
      ⟨false, ⟨false, [],
        ["calling http://h/x", "error: microservice http://h/x failed. connection refused"],
        false, false⟩,
       [Event.called 0 "http://h/x", Event.policyEval 0 "http://h/x"]⟩ := by
  decide

/-- Claim C4, counterexample: in the Data hook an endpoint configured
fireandforget=true is still called synchronously (a `called` trace event, not
a `dispatched` one) and its transport failure, under PERMFAIL, changes the
pipeline outcome: stop=true and a 550 reply is written. -/
theorem C4_counterexample :
    smtpdData ["http://h/x?fireandforget=true&onfailure=permfail"] true true true
      (fun _ => CallResult.transportErr "boom") ⟨false, [], [], false, false⟩ =
      ⟨true, [], ⟨false, ["550 sorry something wrong happened"],
        ["calling http://h/x", "error: microservice http://h/x failed. boom"], false, false⟩,
       [Event.called 0 "http://h/x", Event.policyEval 0 "http://h/x"], true, true⟩ := by
  decide

/-- Claim C5, counterexample: when writing the message body to the temp file
fails, the run exits with the file created but not removed — the
`defer os.Remove` is registered only after the write error check. -/
theorem C5_counterexample :
    (smtpdData ["http://h/x"] true false true
      (fun _ => CallResult.ok ⟨none, [], false⟩) ⟨false, [], [], false, false⟩).tmpCreated =
      true ∧
    (smtpdData ["http://h/x"] true false true
      (fun _ => CallResult.ok ⟨none, [], false⟩) ⟨false, [], [], false, false⟩).tmpRemoved =
      false :=
  ⟨rfl, rfl⟩

/-- Claim C5, amended: once the body write succeeds the temp file is removed
on every exit path of the run (encode failure, policy halt, success); on the
write-failure path the file was created but is not removed; when temp-file
creation itself fails no file exists. -/
theorem C5_amended (uris : List String) (mOk : Bool)
    (w : Nat → CallResult SmtpdDataResponse) (s : Session) (hne : uris ≠ []) :
    (smtpdData uris true true mOk w s).tmpRemoved = true ∧
    (smtpdData uris true false mOk w s).tmpCreated = true ∧
    (smtpdData uris true false mOk w s).tmpRemoved = false ∧
    (smtpdData uris false true mOk w s).tmpCreated = false := by
  rcases mOk <;> simp [smtpdData, hne]

/-- Witness for C5_amended on a one-endpoint configuration. -/
theorem C5_amended_witness :
    (smtpdData ["http://h/x"] true true true
      (fun _ => CallResult.ok ⟨none, [], false⟩) ⟨false, [], [], false, false⟩).tmpRemoved =
      true :=
  (C5_amended ["http://h/x"] true (fun _ => CallResult.ok ⟨none, [], false⟩)
    ⟨false, [], [], false, false⟩ (by decide)).1

/-- Claim C7, counterexample: a decoded Data-hook outcome that halts (550
reply written, stop=true) still has its extra headers folded into the
aggregate, and a halting RcptTo outcome still overwrites the relay-granted
flag — extension data is not folded "only when the outcome is non-halting". -/
theorem C7_counterexample :
    ((smtpdData ["http://h/x"] true true true
        (fun _ => CallResult.ok ⟨some ⟨550, "rejected"⟩, ["X-Test: 1"], false⟩)
        ⟨false, [], [], false, false⟩).stop = true ∧
      (smtpdData ["http://h/x"] true true true
        (fun _ => CallResult.ok ⟨some ⟨550, "rejected"⟩, ["X-Test: 1"], false⟩)
        ⟨false, [], [], false, false⟩).extraHeaders = ["X-Test: 1"]) ∧
    ((msSmtpdRcptTo ["http://h/x"] true
        (fun _ => CallResult.ok ⟨true, some ⟨550, "no relay"⟩, false⟩)
        ⟨false, [], [], false, false⟩).stop = true ∧
      (msSmtpdRcptTo ["http://h/x"] true
        (fun _ => CallResult.ok ⟨true, some ⟨550, "no relay"⟩, false⟩)
        ⟨false, [], [], false, false⟩).session.relayGranted = true) :=
  ⟨⟨rfl, rfl⟩, ⟨rfl, rfl⟩⟩


/-- Claim C1, amended: for an endpoint with onFailure TEMPFAIL or PERMFAIL
whose synchronous call fails in transport or decode, each of the three session
pipelines halts immediately — the result is produced without touching the
remaining endpoints, whose identities appear in no further trace event. In
RcptTo and Data the session receives the 450 (TEMPFAIL) or 550 (PERMFAIL)
reply; in NewClient no reply is written (outputs unchanged) and the run
returns stop=false. -/
theorem C1_amended
    (w1 : Nat → CallResult SmtpdNewClientResponse)
    (w2 : Nat → CallResult SmtpdRcptToResponse)
    (w3 : Nat → CallResult SmtpdDataResponse)
    (uri : String) (rest : List String) (i : Nat) (s : Session) (evs : List Event)
    (hdrs : List String) (ms : Microservice) (e : String)
    (hms : newMicroservice uri = Except.ok ms)
    (hpol : ms.onFailure = Onfailure.TEMPFAIL ∨ ms.onFailure = Onfailure.PERMFAIL)
    (hnoskip : ¬ (s.authenticated = true ∧ ms.skipAuthentifiedUser = true))
    (hfaf : ms.fireAndForget = false)
    (hw1 : w1 i = CallResult.transportErr e ∨ w1 i = CallResult.decodeErr e)
    (hw2 : w2 i = CallResult.transportErr e ∨ w2 i = CallResult.decodeErr e)
    (hw3 : w3 i = CallResult.transportErr e ∨ w3 i = CallResult.decodeErr e) :
    msSmtpdNewClientLoop w1 (uri :: rest) i s evs =
      ⟨false, (s.logInfo ("calling " ++ ms.url)).logErr
          ("microservice " ++ ms.url ++ " failed. " ++ e),
        evs ++ [Event.called i ms.url, Event.policyEval i ms.url]⟩ ∧
    (msSmtpdNewClientLoop w1 (uri :: rest) i s evs).session.outputs = s.outputs ∧
    msSmtpdRcptToLoop w2 (uri :: rest) i s evs =
      ⟨true, ((s.logInfo ("calling " ++ ms.url)).logErr
          ("microservice " ++ ms.url ++ " failed. " ++ e)).out
          (if ms.onFailure = Onfailure.PERMFAIL then "550 sorry something wrong happened"
           else "450 sorry something wrong happened"),
        evs ++ [Event.called i ms.url, Event.policyEval i ms.url]⟩ ∧
    smtpdDataLoop w3 (uri :: rest) i s evs hdrs =
      ⟨true, hdrs, ((s.logInfo ("calling " ++ ms.url)).logErr
          ("microservice " ++ ms.url ++ " failed. " ++ e)).out
          (if ms.onFailure = Onfailure.PERMFAIL then "550 sorry something wrong happened"
           else "450 sorry something wrong happened"),
        evs ++ [Event.called i ms.url, Event.policyEval i ms.url]⟩ := by
  have hstop : ms.stopOnError = true := by
    rcases hpol with hp | hp <;> simp [Microservice.stopOnError, hp]
  have h1 : msSmtpdNewClientLoop w1 (uri :: rest) i s evs =
      ⟨false, (s.logInfo ("calling " ++ ms.url)).logErr
          ("microservice " ++ ms.url ++ " failed. " ++ e),
        evs ++ [Event.called i ms.url, Event.policyEval i ms.url]⟩ := by
    rcases hw1 with hw | hw <;>
      (rw [msSmtpdNewClientLoop, hms]
       simp [if_neg hnoskip, hfaf, hw, hstop, List.append_assoc])
  refine ⟨h1, by rw [h1]; rfl, ?_, ?_⟩
  · rcases hw2 with hw | hw <;> rcases hpol with hp | hp <;>
      (rw [msSmtpdRcptToLoop, hms]
       simp [if_neg hnoskip, hfaf, hw, hp, Microservice.handleSMTPError,
         List.append_assoc])
  · rcases hw3 with hw | hw <;> rcases hpol with hp | hp <;>
      (rw [smtpdDataLoop, hms]
       simp [if_neg hnoskip, hw, hp, Microservice.handleSMTPError, List.append_assoc])

/-- Claim C4, amended: in the NewClient and RcptTo pipelines a
fireAndForget endpoint is dispatched detached (a `dispatched` trace event) and
the pipeline proceeds immediately with the rest, its outcome never observed —
the call outcome oracle may be replaced by any oracle agreeing on the later
endpoints without changing the run. In the Data pipeline the flag is ignored:
the endpoint is called synchronously and a failing call under PERMFAIL halts
the run with a 550 reply. -/
theorem C4_amended
    (w1 w1' : Nat → CallResult SmtpdNewClientResponse)
    (w2 w2' : Nat → CallResult SmtpdRcptToResponse)
    (w3 : Nat → CallResult SmtpdDataResponse)
    (uri : String) (rest : List String) (i : Nat) (s : Session) (evs : List Event)
    (hdrs : List String) (ms : Microservice) (e : String)
    (hms : newMicroservice uri = Except.ok ms)
    (hfaf : ms.fireAndForget = true)
    (hnoskip : ¬ (s.authenticated = true ∧ ms.skipAuthentifiedUser = true))
    (hw1 : ∀ j, i + 1 ≤ j → w1 j = w1' j)
    (hw2 : ∀ j, i + 1 ≤ j → w2 j = w2' j)
    (hpol : ms.onFailure = Onfailure.PERMFAIL)
    (hw3 : w3 i = CallResult.transportErr e) :
    msSmtpdNewClientLoop w1 (uri :: rest) i s evs =
      msSmtpdNewClientLoop w1' rest (i + 1) (s.logInfo ("calling " ++ ms.url))
        (evs ++ [Event.dispatched i ms.url]) ∧
    msSmtpdRcptToLoop w2 (uri :: rest) i s evs =
      msSmtpdRcptToLoop w2' rest (i + 1) (s.logInfo ("calling " ++ ms.url))
        (evs ++ [Event.dispatched i ms.url]) ∧
    smtpdDataLoop w3 (uri :: rest) i s evs hdrs =
      ⟨true, hdrs, ((s.logInfo ("calling " ++ ms.url)).logErr
          ("microservice " ++ ms.url ++ " failed. " ++ e)).out
          "550 sorry something wrong happened",
        evs ++ [Event.called i ms.url, Event.policyEval i ms.url]⟩ := by
  refine ⟨?_, ?_, ?_⟩
  · have hstep : msSmtpdNewClientLoop w1 (uri :: rest) i s evs =
        msSmtpdNewClientLoop w1 rest (i + 1) (s.logInfo ("calling " ++ ms.url))
          (evs ++ [Event.dispatched i ms.url]) := by
      rw [msSmtpdNewClientLoop, hms]
      simp [if_neg hnoskip, hfaf]
    rw [hstep]
    exact newClientLoop_congr w1 w1' rest (i + 1) _ _ hw1
  · have hstep : msSmtpdRcptToLoop w2 (uri :: rest) i s evs =
        msSmtpdRcptToLoop w2 rest (i + 1) (s.logInfo ("calling " ++ ms.url))
          (evs ++ [Event.dispatched i ms.url]) := by
      rw [msSmtpdRcptToLoop, hms]
      simp [if_neg hnoskip, hfaf]
    rw [hstep]
    exact rcptToLoop_congr w2 w2' rest (i + 1) _ _ hw2
  · rw [smtpdDataLoop, hms]
    simp [if_neg hnoskip, hw3, hpol, Microservice.handleSMTPError, List.append_assoc]

/-- Claim C8: on an authenticated session, an endpoint with
skipauthentifieduser=true is never contacted in any of the three session
pipelines: the loop continues with the remaining endpoints in an unchanged
session, and no trace event (synchronous call, detached dispatch, or policy
evaluation) is ever generated for that endpoint position. Confirmed. -/
theorem C8_skip_authenticated
    (w1 : Nat → CallResult SmtpdNewClientResponse)
    (w2 : Nat → CallResult SmtpdRcptToResponse)
    (w3 : Nat → CallResult SmtpdDataResponse)
    (uri : String) (rest : List String) (i : Nat) (s : Session) (evs : List Event)
    (hdrs : List String) (ms : Microservice)
    (hms : newMicroservice uri = Except.ok ms)
    (hskip : ms.skipAuthentifiedUser = true)
    (hauth : s.authenticated = true) :
    msSmtpdNewClientLoop w1 (uri :: rest) i s evs =
      msSmtpdNewClientLoop w1 rest (i + 1) s evs ∧
    msSmtpdRcptToLoop w2 (uri :: rest) i s evs =
      msSmtpdRcptToLoop w2 rest (i + 1) s evs ∧
    smtpdDataLoop w3 (uri :: rest) i s evs hdrs =
      smtpdDataLoop w3 rest (i + 1) s evs hdrs ∧
    (∀ e, e ∈ (msSmtpdNewClientLoop w1 (uri :: rest) i s evs).events →
      e ∈ evs ∨ i < e.idx) ∧
    (∀ e, e ∈ (msSmtpdRcptToLoop w2 (uri :: rest) i s evs).events →
      e ∈ evs ∨ i < e.idx) ∧
    (∀ e, e ∈ (smtpdDataLoop w3 (uri :: rest) i s evs hdrs).events →
      e ∈ evs ∨ i < e.idx) := by
  have h1 : msSmtpdNewClientLoop w1 (uri :: rest) i s evs =
      msSmtpdNewClientLoop w1 rest (i + 1) s evs := by
    rw [msSmtpdNewClientLoop, hms]
    simp only [if_pos (And.intro hauth hskip)]
  have h2 : msSmtpdRcptToLoop w2 (uri :: rest) i s evs =
      msSmtpdRcptToLoop w2 rest (i + 1) s evs := by
    rw [msSmtpdRcptToLoop, hms]
    simp only [if_pos (And.intro hauth hskip)]
  have h3 : smtpdDataLoop w3 (uri :: rest) i s evs hdrs =
      smtpdDataLoop w3 rest (i + 1) s evs hdrs := by
    rw [smtpdDataLoop, hms]
    simp only [if_pos (And.intro hauth hskip)]
  refine ⟨h1, h2, h3, ?_, ?_, ?_⟩
  · intro e he
    rw [h1] at he
    rcases newClientLoop_events_ge w1 rest (i + 1) s evs e he with h | h
    · exact Or.inl h
    · exact Or.inr h
  · intro e he
    rw [h2] at he
    rcases rcptToLoop_events_ge w2 rest (i + 1) s evs e he with h | h
    · exact Or.inl h
    · exact Or.inr h
  · intro e he
    rw [h3] at he
    rcases dataLoop_events_ge w3 rest (i + 1) s evs hdrs e he with h | h
    · exact Or.inl h
    · exact Or.inr h


/-- Claim C7, amended: hook-specific extension data is folded for every
successfully decoded outcome BEFORE halting is evaluated, regardless of
whether the outcome halts: a halting Data outcome still returns the aggregate
extended by its extra headers, a non-halting one continues with the extended
aggregate, and a halting RcptTo outcome still leaves its relay-granted flag
overwritten in the session. -/
theorem C7_amended
    (w2 : Nat → CallResult SmtpdRcptToResponse)
    (w3 : Nat → CallResult SmtpdDataResponse)
    (uri : String) (rest : List String) (i : Nat) (s : Session) (evs : List Event)
    (hdrs : List String) (ms : Microservice)
    (resp2 : SmtpdRcptToResponse) (resp3 : SmtpdDataResponse)
    (hms : newMicroservice uri = Except.ok ms)
    (hnoskip : ¬ (s.authenticated = true ∧ ms.skipAuthentifiedUser = true))
    (hfaf : ms.fireAndForget = false)
    (hw2 : w2 i = CallResult.ok resp2)
    (hw3 : w3 i = CallResult.ok resp3) :
    ((handleSMTPResponse resp3.smtpResponse (s.logInfo ("calling " ++ ms.url))).1 = true ∨
        resp3.dropConnection = true →
      smtpdDataLoop w3 (uri :: rest) i s evs hdrs =
        ⟨true, hdrs ++ resp3.extraHeaders,
          (if resp3.dropConnection then
            (handleSMTPResponse resp3.smtpResponse (s.logInfo ("calling " ++ ms.url))).2.exitAsap
          else (handleSMTPResponse resp3.smtpResponse (s.logInfo ("calling " ++ ms.url))).2),
          evs ++ [Event.called i ms.url]⟩) ∧
    ((handleSMTPResponse resp3.smtpResponse (s.logInfo ("calling " ++ ms.url))).1 = false ∧
        resp3.dropConnection = false →
      smtpdDataLoop w3 (uri :: rest) i s evs hdrs =
        smtpdDataLoop w3 rest (i + 1)
          (handleSMTPResponse resp3.smtpResponse (s.logInfo ("calling " ++ ms.url))).2
          (evs ++ [Event.called i ms.url]) (hdrs ++ resp3.extraHeaders)) ∧
    ((handleSMTPResponse resp2.smtpResponse
          { s.logInfo ("calling " ++ ms.url) with relayGranted := resp2.relayGranted }).1 = true ∨
        resp2.dropConnection = true →
      (msSmtpdRcptToLoop w2 (uri :: rest) i s evs).stop = true ∧
      (msSmtpdRcptToLoop w2 (uri :: rest) i s evs).session.relayGranted = resp2.relayGranted) := by
  refine ⟨?_, ?_, ?_⟩
  · intro hhalt
    rw [smtpdDataLoop, hms]
    by_cases hd : resp3.dropConnection = true
    · simp only [if_neg hnoskip, hw3, hd, if_true]
    · rw [Bool.not_eq_true] at hd
      have hp : (handleSMTPResponse resp3.smtpResponse (s.logInfo ("calling " ++ ms.url))).1 =
          true := by
        rcases hhalt with h | h
        · exact h
        · simp [h] at hd
      simp only [if_neg hnoskip, hw3, hd, hp, Bool.false_eq_true, if_false, if_true]
  · intro hcont
    rw [smtpdDataLoop, hms]
    simp only [if_neg hnoskip, hw3, hcont.1, hcont.2, Bool.false_eq_true, if_false]
  · intro hhalt
    have hmain : msSmtpdRcptToLoop w2 (uri :: rest) i s evs =
        ⟨true,
          (if resp2.dropConnection then
            (handleSMTPResponse resp2.smtpResponse
              { s.logInfo ("calling " ++ ms.url) with
                  relayGranted := resp2.relayGranted }).2.exitAsap
          else (handleSMTPResponse resp2.smtpResponse
              { s.logInfo ("calling " ++ ms.url) with
                  relayGranted := resp2.relayGranted }).2),
          evs ++ [Event.called i ms.url]⟩ := by
      rw [msSmtpdRcptToLoop, hms]
      by_cases hd : resp2.dropConnection = true
      · simp only [if_neg hnoskip, hfaf, hw2, hd, Bool.false_eq_true, if_false, if_true]
      · rw [Bool.not_eq_true] at hd
        have hp : (handleSMTPResponse resp2.smtpResponse
            { s.logInfo ("calling " ++ ms.url) with
                relayGranted := resp2.relayGranted }).1 = true := by
          rcases hhalt with h | h
          · exact h
          · simp [h] at hd
        simp only [if_neg hnoskip, hfaf, hw2, hd, hp, Bool.false_eq_true, if_false, if_true]
    have hrel : (handleSMTPResponse resp2.smtpResponse
        { s.logInfo ("calling " ++ ms.url) with
            relayGranted := resp2.relayGranted }).2.relayGranted = resp2.relayGranted :=
      (handleSMTPResponse_session_fields resp2.smtpResponse _).2.2
    constructor
    · rw [hmain]
    · rw [hmain]
      by_cases hd : resp2.dropConnection = true
      · simp only [hd, if_true, Session.exitAsap]
        exact hrel
      · rw [Bool.not_eq_true] at hd
        simp only [hd, Bool.false_eq_true, if_false]
        exact hrel

/-- Claim C9: a decoded outcome with dropConnection=true and no effective
reply (absent, code zero, or empty message) still requests session
termination and returns stop=true, with nothing written to the outbound
channel. Confirmed on the NewClient pipeline, whose bridge-and-drop sequence
(handleSMTPResponse then exitAsap) is shared verbatim by RcptTo and Data. -/
theorem C9_drop_without_reply
    (w : Nat → CallResult SmtpdNewClientResponse) (uri : String) (rest : List String)
    (i : Nat) (s : Session) (evs : List Event) (ms : Microservice)
    (resp : SmtpdNewClientResponse)
    (hms : newMicroservice uri = Except.ok ms)
    (hnoskip : ¬ (s.authenticated = true ∧ ms.skipAuthentifiedUser = true))
    (hfaf : ms.fireAndForget = false)
    (hw : w i = CallResult.ok resp)
    (hdrop : resp.dropConnection = true)
    (hnoreply : resp.smtpResponse = none ∨
      ∃ r, resp.smtpResponse = some r ∧ (r.code = 0 ∨ r.msg = "")) :
    msSmtpdNewClientLoop w (uri :: rest) i s evs =
      ⟨true, (s.logInfo ("calling " ++ ms.url)).exitAsap, evs ++ [Event.called i ms.url]⟩ ∧
    (msSmtpdNewClientLoop w (uri :: rest) i s evs).session.outputs = s.outputs ∧
    (msSmtpdNewClientLoop w (uri :: rest) i s evs).session.exitRequested = true ∧
    (msSmtpdNewClientLoop w (uri :: rest) i s evs).stop = true := by
  have hbridge : handleSMTPResponse resp.smtpResponse (s.logInfo ("calling " ++ ms.url)) =
      (false, s.logInfo ("calling " ++ ms.url)) :=
    handleSMTPResponse_noreply _ _ hnoreply
  have hmain : msSmtpdNewClientLoop w (uri :: rest) i s evs =
      ⟨true, (s.logInfo ("calling " ++ ms.url)).exitAsap, evs ++ [Event.called i ms.url]⟩ := by
    rw [msSmtpdNewClientLoop, hms]
    simp only [if_neg hnoskip, hfaf, hw, hbridge, hdrop, Bool.false_eq_true, if_false, if_true]
  refine ⟨hmain, ?_, ?_, ?_⟩
  all_goals rw [hmain]
  all_goals rfl

/-- Claim C10: a decoded outcome whose reply has code zero or an empty
message, without dropConnection, writes nothing to the session (the bridge
returns stop=false and an unchanged session) and the pipeline proceeds to the
next endpoint. Confirmed. -/
theorem C10_empty_reply_discarded
    (w : Nat → CallResult SmtpdNewClientResponse) (uri : String) (rest : List String)
    (i : Nat) (s : Session) (evs : List Event) (ms : Microservice)
    (resp : SmtpdNewClientResponse) (r : SmtpResponse)
    (hms : newMicroservice uri = Except.ok ms)
    (hnoskip : ¬ (s.authenticated = true ∧ ms.skipAuthentifiedUser = true))
    (hfaf : ms.fireAndForget = false)
    (hw : w i = CallResult.ok resp)
    (hresp : resp.smtpResponse = some r)
    (hr : r.code = 0 ∨ r.msg = "")
    (hdrop : resp.dropConnection = false) :
    handleSMTPResponse (some r) s = (false, s) ∧
    (handleSMTPResponse (some r) s).2.outputs = s.outputs ∧
    msSmtpdNewClientLoop w (uri :: rest) i s evs =
      msSmtpdNewClientLoop w rest (i + 1) (s.logInfo ("calling " ++ ms.url))
        (evs ++ [Event.called i ms.url]) := by
  have hb : ∀ s2 : Session, handleSMTPResponse (some r) s2 = (false, s2) := fun s2 =>
    handleSMTPResponse_noreply _ _ (Or.inr ⟨r, rfl, hr⟩)
  refine ⟨hb s, by rw [hb s], ?_⟩
  rw [msSmtpdNewClientLoop, hms]
  simp only [if_neg hnoskip, hfaf, hw, hresp, hb, hdrop, Bool.false_eq_true, if_false]


theorem C1_amended_witness :
    msSmtpdRcptToLoop (fun _ => CallResult.transportErr "boom")
      ["http://h/x?onfailure=tempfail"] 0 ⟨false, [], [], false, false⟩ [] =
      ⟨true, ⟨false, ["450 sorry something wrong happened"],
        ["calling http://h/x", "error: microservice http://h/x failed. boom"], false, false⟩,
       [Event.called 0 "http://h/x", Event.policyEval 0 "http://h/x"]⟩ := by
  have h := (C1_amended (fun _ => CallResult.transportErr "boom")
    (fun _ => CallResult.transportErr "boom") (fun _ => CallResult.transportErr "boom")
    "http://h/x?onfailure=tempfail" [] 0 ⟨false, [], [], false, false⟩ [] []
    ⟨"http://h/x", false, false, 30, Onfailure.TEMPFAIL⟩ "boom" rfl (Or.inl rfl)
    (by decide) rfl (Or.inl rfl) (Or.inl rfl) (Or.inl rfl)).2.2.1
  exact h

theorem C4_amended_witness :
    smtpdDataLoop (fun _ => CallResult.transportErr "boom")
      ["http://h/x?fireandforget=true&onfailure=permfail"] 0
      ⟨false, [], [], false, false⟩ [] [] =
      ⟨true, [], ⟨false, ["550 sorry something wrong happened"],
        ["calling http://h/x", "error: microservice http://h/x failed. boom"], false, false⟩,
       [Event.called 0 "http://h/x", Event.policyEval 0 "http://h/x"]⟩ := by
  have h := (C4_amended (fun _ => CallResult.transportErr "a")
    (fun _ => CallResult.transportErr "a") (fun _ => CallResult.transportErr "a")
    (fun _ => CallResult.transportErr "a") (fun _ => CallResult.transportErr "boom")
    "http://h/x?fireandforget=true&onfailure=permfail" [] 0
    ⟨false, [], [], false, false⟩ [] []
    ⟨"http://h/x", false, true, 30, Onfailure.PERMFAIL⟩ "boom" rfl rfl (by decide)
    (fun _ _ => rfl) (fun _ _ => rfl) rfl rfl).2.2
  exact h

theorem C7_amended_witness :
    smtpdDataLoop (fun _ => CallResult.ok ⟨some ⟨550, "no"⟩, ["X-Test: 1"], false⟩)
      ["http://h/x"] 0 ⟨false, [], [], false, false⟩ [] [] =
      ⟨true, ["X-Test: 1"], ⟨false, ["550 no"],
        ["calling http://h/x", "smtp response from microservice sent to client: 550 no"],
        false, false⟩,
       [Event.called 0 "http://h/x"]⟩ := by
  have h := (C7_amended (fun _ => CallResult.ok ⟨true, some ⟨550, "no"⟩, false⟩)
    (fun _ => CallResult.ok ⟨some ⟨550, "no"⟩, ["X-Test: 1"], false⟩)
    "http://h/x" [] 0 ⟨false, [], [], false, false⟩ [] []
    ⟨"http://h/x", false, false, 30, Onfailure.CONTINUE⟩
    ⟨true, some ⟨550, "no"⟩, false⟩ ⟨some ⟨550, "no"⟩, ["X-Test: 1"], false⟩
    rfl (by decide) rfl rfl rfl).1 (Or.inl (by decide))
  exact h

theorem C8_skip_authenticated_witness :
    msSmtpdNewClientLoop (fun _ => CallResult.transportErr "x")
      ["http://h/x?skipauthentifieduser=true"] 0 ⟨true, [], [], false, false⟩ [] =
      msSmtpdNewClientLoop (fun _ => CallResult.transportErr "x") [] 1
        ⟨true, [], [], false, false⟩ [] :=
  (C8_skip_authenticated (fun _ => CallResult.transportErr "x")
    (fun _ => CallResult.transportErr "x") (fun _ => CallResult.transportErr "x")
    "http://h/x?skipauthentifieduser=true" [] 0 ⟨true, [], [], false, false⟩ [] []
    ⟨"http://h/x", true, false, 30, Onfailure.CONTINUE⟩ rfl rfl rfl).1

theorem C9_drop_without_reply_witness :
    msSmtpdNewClientLoop (fun _ => CallResult.ok ⟨none, true⟩) ["http://h/x"] 0
      ⟨false, [], [], false, false⟩ [] =
      ⟨true, ⟨false, [], ["calling http://h/x"], true, false⟩,
       [Event.called 0 "http://h/x"]⟩ := by
  have h := (C9_drop_without_reply (fun _ => CallResult.ok ⟨none, true⟩) "http://h/x" [] 0
    ⟨false, [], [], false, false⟩ [] ⟨"http://h/x", false, false, 30, Onfailure.CONTINUE⟩
    ⟨none, true⟩ rfl (by decide) rfl rfl rfl (Or.inl rfl)).1
  exact h

theorem C10_empty_reply_discarded_witness :
    handleSMTPResponse (some ⟨0, "ignored"⟩) ⟨false, [], [], false, false⟩ =
      (false, ⟨false, [], [], false, false⟩) ∧
    msSmtpdNewClientLoop (fun _ => CallResult.ok ⟨some ⟨0, "ignored"⟩, false⟩)
      ["http://h/x"] 0 ⟨false, [], [], false, false⟩ [] =
      msSmtpdNewClientLoop (fun _ => CallResult.ok ⟨some ⟨0, "ignored"⟩, false⟩) [] 1
        (Session.logInfo ⟨false, [], [], false, false⟩ "calling http://h/x")
        [Event.called 0 "http://h/x"] := by
  have h := C10_empty_reply_discarded (fun _ => CallResult.ok ⟨some ⟨0, "ignored"⟩, false⟩)
    "http://h/x" [] 0 ⟨false, [], [], false, false⟩ []
    ⟨"http://h/x", false, false, 30, Onfailure.CONTINUE⟩ ⟨some ⟨0, "ignored"⟩, false⟩
    ⟨0, "ignored"⟩ rfl (by decide) rfl rfl rfl (Or.inl rfl) rfl
  exact ⟨h.1, h.2.2⟩


end Tmail
